import Mathlib

/-!
Verification of the role-assumption and credential-caching
engine and of its command-line option parser.

The option parser is embedded directly from `cli/options.go`.  The engine
itself (role assumption, credential caching, MFA prompt, profile-key
derivation) is not part of the delivered sources - only its test suite is -
so it is modelled from the specification, with each modelled definition
carrying a doc comment that says so.  Timestamps are modelled as integers
(nanoseconds since an arbitrary epoch), so a Go `time.Duration` of one
second is the integer 1000000000.
-/

namespace AssumeRoleCLI

/-! ## Basic list/character utilities (kernel-reducible) -/

/-- Boolean test that the list `l` starts with the list `p`. -/
def startsWithL : List Char → List Char → Bool
  | _, [] => true
  | [], _ :: _ => false
  | x :: xs, c :: cs => x = c && startsWithL xs cs

/-- Boolean substring containment on character lists. -/
def hasSubL : List Char → List Char → Bool
  | [], sub => sub.isEmpty
  | x :: xs, sub => startsWithL (x :: xs) sub || hasSubL xs sub

/-- Split a character list at every occurrence of the separator `c`. -/
def splitCharL (c : Char) : List Char → List (List Char)
  | [] => [[]]
  | x :: xs =>
    if x = c then [] :: splitCharL c xs
    else
      match splitCharL c xs with
      | [] => [[x]]
      | h :: t => (x :: h) :: t

/-- Boolean test that string `s` starts with string `p`. -/
def strStartsWith (s p : String) : Bool := startsWithL s.data p.data

/-- Boolean substring containment on strings. -/
def strHasSub (s sub : String) : Bool := hasSubL s.data sub.data

/-- Drop the first `n` characters of a string. -/
def strDrop (s : String) (n : Nat) : String := String.mk (s.data.drop n)

/-- Numeric value of a decimal digit character, if it is one. -/
def digitVal (c : Char) : Option Nat :=
  if 48 ≤ c.toNat ∧ c.toNat ≤ 57 then some (c.toNat - 48) else none

/-- Parse an unsigned decimal numeral from a character list. -/
def parseNatL : List Char → Option Nat
  | [] => none
  | [c] => digitVal c
  | c :: rest =>
    match digitVal c, parseNatL rest with
    | some d, some n => some (d * 10 ^ rest.length + n)
    | _, _ => none

/-- Parse an optionally `-`-signed decimal integer from a string.

Modelled from the spec: the notion, in the interactive prompt, of a line that
"parses as an integer"; the concrete numeric syntax is not fixed by the
spec beyond decimal numerals, so an optional leading minus sign is
accepted. -/
def parseIntLine (s : String) : Option Int :=
  match s.data with
  | '-' :: rest => (parseNatL rest).map (fun n => -(n : Int))
  | l => (parseNatL l).map (fun n => (n : Int))

/-! ## Credential-expiry policy (spec section 4.5) -/

/-- Modelled from the spec: the pure credential-expiry policy
`IsStale(expiry, now, refreshBeforeExpiry)`, defined as
`now.Add(refreshBeforeExpiry) >= expiry`, with an inclusive boundary.
Times and durations are integer nanoseconds. -/
def IsStale (expiry now refreshBeforeExpiry : Int) : Bool :=
  decide (expiry ≤ now + refreshBeforeExpiry)

/-! ## ARN helpers (spec sections 4.1 and 4.3 step 2) -/

/-- Colon-separated fields of an ARN string. -/
def arnFields (arn : String) : List String :=
  (splitCharL ':' arn.data).map String.mk

/-- Account-identifier field (index 4) of an ARN. -/
def arnAccountID (arn : String) : String := (arnFields arn).getD 4 ""

/-- Resource field (index 5) of an ARN. -/
def arnResource (arn : String) : String := (arnFields arn).getD 5 ""

/-- Modelled from the spec: principal classification for the missing
engine sources - a principal ARN denotes an assumed-role identity when
its resource field is an STS `assumed-role` resource, as opposed to an
IAM `user` resource. -/
def isAssumedRoleARN (arn : String) : Bool :=
  strStartsWith (arnResource arn) "assumed-role/"

/-- Role name extracted from the `role/{name}` resource field of a role ARN. -/
def roleNameFromARN (arn : String) : String :=
  let r := arnResource arn
  if strStartsWith r "role/" then strDrop r 5 else r

/-! ## Data model (spec section 3) -/

/-- Modelled from the spec: the `TemporaryCredentials` value object
returned by the identity provider and cached locally.  The expiry
timestamp is integer nanoseconds. -/
structure TemporaryCredentials where
  accessKeyID : String
  secretAccessKey : String
  sessionToken : String
  expires : Int
deriving DecidableEq, Repr

/-- Modelled from the spec: the persisted `ProfileConfiguration`
metadata describing how a cached credential was obtained.  An empty
`mfaSerial` means MFA was not required. -/
structure ProfileConfiguration where
  expires : Int
  mfaSerial : String
  roleARN : String
  roleSessionName : String
deriving DecidableEq, Repr

/-- Modelled from the spec: the process-wide read-only `Config` policy:
the refresh-before-expiry duration (integer nanoseconds) and the
optional role-name alias used when deriving profile keys (empty string
means no alias is configured). -/
structure Config where
  refreshBeforeExpiry : Int
  rolePfx : String
deriving DecidableEq, Repr

/-- Modelled from the spec: the per-call `AssumeRoleParameters` request:
a target role identifier (bare role name or fully qualified role ARN)
and an optional session-name override (empty string means no override). -/
structure AssumeRoleParameters where
  userRole : String
  roleSessionName : String
deriving DecidableEq, Repr

/-- A failure reported by the identity provider, classifiable as
access-denied versus other, as spec section 6 requires. -/
structure AwsErr where
  accessDenied : Bool
  message : String
deriving DecidableEq, Repr

/-- Modelled from the spec: the `IdentityProvider` capability the engine
consumes, as a record of its responses: current-principal lookup,
username lookup, MFA-device enumeration, and the plain and MFA-protected
assumption calls keyed by their string arguments. -/
structure Provider where
  currentPrincipalARN : Except AwsErr String
  username : Except AwsErr String
  mfaDevices : Except AwsErr (List String)
  assumeRole : String → String → Except AwsErr TemporaryCredentials
  assumeRoleWithMFA : String → String → String → String →
    Except AwsErr TemporaryCredentials

/-- Modelled from the spec: the `ProfileStore` capability, as the maps
it holds: profile metadata and cached credentials by profile key
(absence is `none`, reported without error). -/
structure Store where
  profiles : String → Option ProfileConfiguration
  credentials : String → Option TemporaryCredentials

/-- One externally observable engine action: a provider call or a
profile-store access, with the arguments that identify it. -/
inductive Event where
  | currentPrincipalARN : Event
  | username : Event
  | mfaDevices : Event
  | assumeRole (roleARN sessionName : String) : Event
  | assumeRoleWithMFA (roleARN sessionName mfaSerial tokenCode : String) : Event
  | getProfile (key : String) : Event
  | setProfile (key : String) : Event
  | getCredentials (key : String) : Event
  | setCredentials (key : String) : Event
deriving DecidableEq, Repr

/-- Whether an event is a call on the identity provider (as opposed to a
profile-store access). -/
def Event.isProviderCall : Event → Bool
  | .currentPrincipalARN => true
  | .username => true
  | .mfaDevices => true
  | .assumeRole _ _ => true
  | .assumeRoleWithMFA _ _ _ _ => true
  | _ => false

/-- Whether an event is one of the two assumption calls. -/
def Event.isAssumptionCall : Event → Bool
  | .assumeRole _ _ => true
  | .assumeRoleWithMFA _ _ _ _ => true
  | _ => false

/-- Whether an event is the MFA-protected assumption call. -/
def Event.isMFAAssumption : Event → Bool
  | .assumeRoleWithMFA _ _ _ _ => true
  | _ => false

/-- The profile key an event addresses, when it is a store access. -/
def Event.storeKey : Event → Option String
  | .getProfile k => some k
  | .setProfile k => some k
  | .getCredentials k => some k
  | .setCredentials k => some k
  | _ => none

/-- The errors the engine can return, each carrying the provider
failures it reports. -/
inductive EngineErr where
  | lookupFailure (message : String) : EngineErr
  | plainFailure (orig : AwsErr) : EngineErr
  | assumedPlainFailure (orig : AwsErr) : EngineErr
  | noMFADevices (orig : AwsErr) : EngineErr
  | mfaFailure (orig : AwsErr) (mfaErr : AwsErr) : EngineErr
  | promptEOF : EngineErr
  | missingCachedCredentials : EngineErr
deriving DecidableEq, Repr

/-- Modelled from the spec: the rendered message of an engine error.
The non-MFA attempt is wrapped with the marker
`error trying to AssumeRole without MFA` and the MFA attempt with the
marker `error trying to AssumeRole with MFA`; the composite failures of
spec section 7 (c) and (d) name both. -/
def EngineErr.render : EngineErr → String
  | .lookupFailure m => m
  | .plainFailure e => "error trying to AssumeRole without MFA: " ++ e.message
  | .assumedPlainFailure e => e.message
  | .noMFADevices e =>
    "error trying to AssumeRole with MFA: no MFA devices found (error trying to AssumeRole without MFA: " ++
      (e.message ++ ")")
  | .mfaFailure e m =>
    "error trying to AssumeRole with MFA: " ++
      (m.message ++ (" (error trying to AssumeRole without MFA: " ++ (e.message ++ ")")))
  | .promptEOF => "unexpected end of input"
  | .missingCachedCredentials => "cached credentials missing from store"

/-- Everything one engine invocation observes of the world: the provider
responses, the store contents, the static configuration, the injected
current time of the clock, and the lines available on the input stream. -/
structure World where
  provider : Provider
  store : Store
  config : Config
  now : Int
  inputLines : List String

/-- The outcome of one engine invocation: the returned credentials or
error, the chronological trace of provider/store events, the final store
contents, everything written to the error stream, and the input lines
left unconsumed. -/
structure EngineResult where
  result : Except EngineErr TemporaryCredentials
  trace : List Event
  store : Store
  stderr : String
  restInput : List String

/-! ## Interactive MFA prompt (spec section 4.4) -/

/-- Modelled from the spec: the 1-based numbered device menu, in
provider enumeration order, followed by the selection prompt line.  The
literal texts are the external contract that the tests of the
repository match verbatim. -/
def menuText (devices : List String) : String :=
  String.join ((devices.enum.map
    (fun p => "[" ++ toString (p.1 + 1) ++ "]: " ++ p.2 ++ "\n"))) ++
    "Select MFA device: "

/-- Result of the device-selection loop: a selected device serial with
the remaining input and the transcript written so far, or end-of-input. -/
inductive SelectionResult where
  | ok (serial : String) (rest : List String) (out : String) : SelectionResult
  | eof (out : String) : SelectionResult
deriving Repr

/-- Prepend prompt output to the transcript of a selection result. -/
def SelectionResult.withOut (s : String) : SelectionResult → SelectionResult
  | .ok serial rest out => .ok serial rest (s ++ out)
  | .eof out => .eof (s ++ out)

/-- Modelled from the spec: the `AwaitingSelection` loop.  Each
iteration renders the menu and reads one line; a line that does not
parse as an integer re-prompts with `Invalid input (not a number)`, an
integer outside `[1, deviceCount]` re-prompts with
`Invalid input (not in range)`, and a valid selection returns the
serial of the chosen device.  End of input is fatal. -/
def selectLoop (devices : List String) : List String → SelectionResult
  | [] => .eof (menuText devices)
  | line :: rest =>
    match parseIntLine line with
    | none =>
      (selectLoop devices rest).withOut
        (menuText devices ++ "Invalid input (not a number)\n")
    | some n =>
      if 1 ≤ n ∧ n ≤ (devices.length : Int) then
        .ok (devices.getD (n - 1).toNat "") rest (menuText devices)
      else
        (selectLoop devices rest).withOut
          (menuText devices ++ "Invalid input (not in range)\n")

/-- Result of the whole MFA prompt: the selected serial and the token
read verbatim, with remaining input and transcript, or end-of-input. -/
inductive MFAPromptResult where
  | ok (serial token : String) (rest : List String) (out : String) : MFAPromptResult
  | eof (out : String) : MFAPromptResult
deriving Repr

/-- Modelled from the spec: the full interactive MFA prompt.  With
exactly one enumerated device the selection menu is skipped and that
device is auto-selected (as the tests of the repository pin down: with a
single device only the token line is consumed from the input stream);
otherwise the device-selection loop runs.  The `AwaitingToken` state
then renders `Enter MFA token: ` and reads one line verbatim as the
token. -/
def promptMFA (devices : List String) (input : List String) : MFAPromptResult :=
  if devices.length = 1 then
    match input with
    | [] => .eof "Enter MFA token: "
    | tok :: rest => .ok (devices.getD 0 "") tok rest "Enter MFA token: "
  else
    match selectLoop devices input with
    | .eof out => .eof out
    | .ok serial rest out =>
      match rest with
      | [] => .eof (out ++ "Enter MFA token: ")
      | tok :: rest2 => .ok serial tok rest2 (out ++ "Enter MFA token: ")

/-! ## Profile-key derivation and target resolution (spec sections 4.2, 4.3 step 2) -/

/-- Modelled from the spec: `DeriveProfileKey(accountID, roleName, alias)`
is `{alias-or-accountID}-{roleName}`; a configured non-empty alias
replaces the raw account-identifier component. -/
def deriveProfileKey (accountID roleName aliasName : String) : String :=
  (if aliasName = "" then accountID else aliasName) ++ "-" ++ roleName

/-- The resolved target of one call: the effective role ARN, the bare
role name, and the account identifier it belongs to. -/
structure TargetInfo where
  roleARN : String
  roleName : String
  accountID : String
deriving DecidableEq, Repr

/-- Modelled from the spec: resolution of the target role identifier.
A fully qualified ARN is used as-is and its account identifier is
extracted from it; a bare role name is combined with the current
account identifier of the current principal and the ARN is constructed as
`arn:aws:iam::{accountID}:role/{roleName}`. -/
def resolveTarget (userRole principalARN : String) : TargetInfo :=
  if strStartsWith userRole "arn:" then
    { roleARN := userRole
      roleName := roleNameFromARN userRole
      accountID := arnAccountID userRole }
  else
    let acct := arnAccountID principalARN
    { roleARN := "arn:aws:iam::" ++ acct ++ ":role/" ++ userRole
      roleName := userRole
      accountID := acct }

/-- The profile key of one call: `deriveProfileKey` applied to the
account identifier and role name of the resolved target and the configured
alias. -/
def engineKey (userRole principalARN aliasName : String) : String :=
  deriveProfileKey (resolveTarget userRole principalARN).accountID
    (resolveTarget userRole principalARN).roleName aliasName

/-! ## The role-assumption engine (spec section 4.3) -/

/-- Modelled from the spec: step 6, persistence after a successful
assumption.  A fresh `ProfileConfiguration` (role ARN, session name,
MFA serial if one was used, expiry copied from the returned
credentials) is written, then the credentials, both under the profile
key, and the credentials are returned. -/
def persistAndReturn (key roleARN sessionName mfaSerial : String)
    (creds : TemporaryCredentials) (w : World) (tr : List Event)
    (out : String) (rest : List String) : EngineResult :=
  { result := .ok creds
    trace := tr ++ [Event.setProfile key, Event.setCredentials key]
    store :=
      { profiles := fun k =>
          if k = key then
            some { expires := creds.expires, mfaSerial := mfaSerial,
                   roleARN := roleARN, roleSessionName := sessionName }
          else w.store.profiles k
        credentials := fun k =>
          if k = key then some creds else w.store.credentials k }
    stderr := out
    restInput := rest }

/-- Modelled from the spec: step 5, the MFA fallback entered after an
access-denied plain assumption failure `origErr`.  MFA devices are
enumerated; zero devices is the composite no-device failure; otherwise
the interactive prompt selects a device and reads a token and the
MFA-protected assumption is called once with that serial and token,
its failure being the composite MFA failure. -/
def mfaFallback (key roleARN sessionName : String) (origErr : AwsErr)
    (w : World) (tr : List Event) : EngineResult :=
  let tr2 := tr ++ [Event.mfaDevices]
  match w.provider.mfaDevices with
  | .error e =>
    { result := .error (.lookupFailure e.message), trace := tr2,
      store := w.store, stderr := "", restInput := w.inputLines }
  | .ok [] =>
    { result := .error (.noMFADevices origErr), trace := tr2,
      store := w.store, stderr := "", restInput := w.inputLines }
  | .ok (d :: ds) =>
    match promptMFA (d :: ds) w.inputLines with
    | .eof out =>
      { result := .error .promptEOF, trace := tr2,
        store := w.store, stderr := out, restInput := [] }
    | .ok serial tok rest out =>
      let tr3 := tr2 ++ [Event.assumeRoleWithMFA roleARN sessionName serial tok]
      match w.provider.assumeRoleWithMFA roleARN sessionName serial tok with
      | .ok creds => persistAndReturn key roleARN sessionName serial creds w tr3 out rest
      | .error e =>
        { result := .error (.mfaFailure origErr e), trace := tr3,
          store := w.store, stderr := out, restInput := rest }

/-- Modelled from the spec: step 4.  An assumed-role principal performs
only the plain assumption and any failure of it is fatal; a primary
principal attempts the plain assumption first, a success is persisted
with an empty MFA serial, an access-denied failure enters the MFA
fallback, and any other failure is fatal, wrapped as a non-MFA-attempt
failure. -/
def attemptAssumption (key roleARN sessionName : String) (isAssumed : Bool)
    (w : World) (tr : List Event) : EngineResult :=
  let tr2 := tr ++ [Event.assumeRole roleARN sessionName]
  match w.provider.assumeRole roleARN sessionName with
  | .ok creds => persistAndReturn key roleARN sessionName "" creds w tr2 "" w.inputLines
  | .error e =>
    if isAssumed then
      { result := .error (.assumedPlainFailure e), trace := tr2,
        store := w.store, stderr := "", restInput := w.inputLines }
    else if e.accessDenied then
      mfaFallback key roleARN sessionName e w tr2
    else
      { result := .error (.plainFailure e), trace := tr2,
        store := w.store, stderr := "", restInput := w.inputLines }

/-- Modelled from the spec: step 3, the cache check.  The stored
profile for the key is loaded; if present and not stale per `IsStale`
(its expiry is strictly later than now plus the refresh horizon), the
cached credentials are loaded from the store and returned with no
further call; otherwise the assumption path runs. -/
def cacheCheck (key roleARN sessionName : String) (isAssumed : Bool)
    (w : World) (tr : List Event) : EngineResult :=
  let tr2 := tr ++ [Event.getProfile key]
  match w.store.profiles key with
  | some p =>
    if IsStale p.expires w.now w.config.refreshBeforeExpiry then
      attemptAssumption key roleARN sessionName isAssumed w tr2
    else
      match w.store.credentials key with
      | some c =>
        { result := .ok c, trace := tr2 ++ [Event.getCredentials key],
          store := w.store, stderr := "", restInput := w.inputLines }
      | none =>
        { result := .error .missingCachedCredentials,
          trace := tr2 ++ [Event.getCredentials key],
          store := w.store, stderr := "", restInput := w.inputLines }
  | none => attemptAssumption key roleARN sessionName isAssumed w tr2

/-- Modelled from the spec: the `AssumeRole` operation of the engine.
Step 1 resolves the current principal (fatal on failure) and the
session name - the per-call override when non-empty, otherwise the
username lookup from the provider (fatal on failure); step 2 resolves the
target and the profile key; the remaining steps are `cacheCheck`,
`attemptAssumption`, `mfaFallback` and `persistAndReturn`. -/
def engineAssumeRole (params : AssumeRoleParameters) (w : World) : EngineResult :=
  match w.provider.currentPrincipalARN with
  | .error e =>
    { result := .error (.lookupFailure e.message),
      trace := [Event.currentPrincipalARN],
      store := w.store, stderr := "", restInput := w.inputLines }
  | .ok principalARN =>
    let isAssumed := isAssumedRoleARN principalARN
    let target := resolveTarget params.userRole principalARN
    let key := engineKey params.userRole principalARN w.config.rolePfx
    if params.roleSessionName = "" then
      match w.provider.username with
      | .error e =>
        { result := .error (.lookupFailure e.message),
          trace := [Event.currentPrincipalARN, Event.username],
          store := w.store, stderr := "", restInput := w.inputLines }
      | .ok uname =>
        cacheCheck key target.roleARN uname isAssumed w
          [Event.currentPrincipalARN, Event.username]
    else
      cacheCheck key target.roleARN params.roleSessionName isAssumed w
        [Event.currentPrincipalARN]

/-! ## Command-line option parsing (embedded from `cli/options.go`) -/

/-- The available options for the assume-role CLI (`cliOpts` in
`cli/options.go`): the collected remainder arguments, the role to
assume, and the session-name override. -/
structure CliOpts where
  args : List String
  role : String
  roleSessionName : String
deriving DecidableEq, Repr

/-- The `errNoRole` sentinel of `cli/options.go`, as its message. -/
def errNoRole : String := "Missing required argument: --role"

/-- The `ArgsLoop` of `parseOptions` in `cli/options.go`.  Each known
option consumes its value with `argumentList.Next`, which yields the
empty string when the list is exhausted; `--` stops parsing and
collects the remaining arguments; an unknown argument stops parsing and
collects itself plus the remaining arguments. -/
def parseLoop (opts : CliOpts) : List String → CliOpts
  | [] => opts
  | [arg] =>
    if arg = "--role" then { opts with role := "" }
    else if arg = "--role-session-name" then { opts with roleSessionName := "" }
    else if arg = "--" then opts
    else { opts with args := opts.args ++ [arg] }
  | arg :: v :: rest =>
    if arg = "--role" then parseLoop { opts with role := v } rest
    else if arg = "--role-session-name" then
      parseLoop { opts with roleSessionName := v } rest
    else if arg = "--" then { opts with args := opts.args ++ (v :: rest) }
    else { opts with args := opts.args ++ (arg :: v :: rest) }

/-- The `parseOptions` function of `cli/options.go`: run the argument
loop from empty options, then fail with `errNoRole` exactly if the role
field is empty. -/
def parseOptions (args : List String) : CliOpts × Option String :=
  let opts := parseLoop { args := [], role := "", roleSessionName := "" } args
  if opts.role = "" then (opts, some errNoRole) else (opts, none)

/-- Stated from the words of the claim (for comparison with `parseOptions`):
the tokens "from the stopping point onward" - parsing stops at `--`
(which is itself consumed), at the first unknown argument (which is
collected), or at end of input, with each known option consuming its
value. -/
def remainderArgs : List String → List String
  | [] => []
  | [arg] =>
    if arg = "--role" ∨ arg = "--role-session-name" ∨ arg = "--" then []
    else [arg]
  | arg :: v :: rest =>
    if arg = "--role" ∨ arg = "--role-session-name" then remainderArgs rest
    else if arg = "--" then v :: rest
    else arg :: v :: rest

/-! ## Concrete worlds used to evaluate the engine on closed inputs -/

/-- Concrete temporary credentials. -/
def credsA : TemporaryCredentials :=
  { accessKeyID := "ABC123", secretAccessKey := "supersecret",
    sessionToken := "123tok", expires := 1800000000000000000 }

/-- A store with no cached profiles or credentials. -/
def emptyStore : Store :=
  { profiles := fun _ => none, credentials := fun _ => none }

/-- A configuration with a five-minute refresh horizon and no alias. -/
def cfg5min : Config := { refreshBeforeExpiry := 300000000000, rolePfx := "" }

/-- The access-denied failure the provider reports on the plain attempt. -/
def deniedErr : AwsErr :=
  { accessDenied := true, message := "Not authorized to perform sts:AssumeRole" }

/-- A primary-principal provider whose plain assumption is denied and
whose MFA-protected assumption succeeds; one MFA device is enrolled. -/
def providerMFA : Provider :=
  { currentPrincipalARN := .ok "arn:aws:iam::000000000000:user/bob"
    username := .ok "bob"
    mfaDevices := .ok ["arn:aws:iam::000000000000:mfa/bob"]
    assumeRole := fun _ _ => .error deniedErr
    assumeRoleWithMFA := fun _ _ _ _ => .ok credsA }

/-- Request for a fully qualified role ARN with no session override. -/
def pTestRole : AssumeRoleParameters :=
  { userRole := "arn:aws:iam::000000000000:role/testRole", roleSessionName := "" }

/-- World for the first-time MFA flow: empty cache, one device, the
token line waiting on the input stream. -/
def wMFA : World :=
  { provider := providerMFA, store := emptyStore, config := cfg5min,
    now := 0, inputLines := ["123456"] }

/-- A provider identical to `providerMFA` but with no MFA devices. -/
def providerNoDev : Provider :=
  { currentPrincipalARN := .ok "arn:aws:iam::000000000000:user/bob"
    username := .ok "bob"
    mfaDevices := .ok []
    assumeRole := fun _ _ => .error deniedErr
    assumeRoleWithMFA := fun _ _ _ _ => .ok credsA }

/-- World for the zero-devices failure flow. -/
def wNoDev : World :=
  { provider := providerNoDev, store := emptyStore, config := cfg5min,
    now := 0, inputLines := ["123456"] }

/-- An assumed-role provider whose plain assumption is denied. -/
def providerAssumed : Provider :=
  { currentPrincipalARN := .ok "arn:aws:sts::000000000000:assumed-role/testRole/bob"
    username := .ok "bob"
    mfaDevices := .ok ["arn:aws:iam::000000000000:mfa/bob"]
    assumeRole := fun _ _ => .error deniedErr
    assumeRoleWithMFA := fun _ _ _ _ => .ok credsA }

/-- Request used from an assumed-role principal, with a session-name
override. -/
def pFromAssumed : AssumeRoleParameters :=
  { userRole := "arn:aws:iam::000000000000:role/testRole-fromassumedrole",
    roleSessionName := "bob-session" }

/-- World for the assumed-role flow. -/
def wAssumed : World :=
  { provider := providerAssumed, store := emptyStore, config := cfg5min,
    now := 0, inputLines := [] }

/-- Cached credentials for the cache-hit world. -/
def credsCached : TemporaryCredentials :=
  { accessKeyID := "CACHED", secretAccessKey := "s", sessionToken := "t",
    expires := 1000000 + 600000000000 }

/-- Request for the cache-hit world. -/
def pCached : AssumeRoleParameters :=
  { userRole := "arn:aws:iam::123:role/testRole", roleSessionName := "" }

/-- Cached profile for the cache-hit world; it expires ten minutes
after the clock of the world, beyond the five-minute refresh horizon. -/
def profCached : ProfileConfiguration :=
  { expires := 1000000 + 600000000000, mfaSerial := "",
    roleARN := "arn:aws:iam::123:role/testRole", roleSessionName := "bob" }

/-- World whose store holds a still-valid cached profile and
credentials under the key `123-testRole`.  Both assumption responses
are failures, so any assumption call would be visible in the result. -/
def wCached : World :=
  { provider :=
      { currentPrincipalARN := .ok "arn:aws:iam::000000000000:user/bob"
        username := .ok "bob"
        mfaDevices := .ok []
        assumeRole := fun _ _ =>
          .error { accessDenied := false, message := "unexpected assumption call" }
        assumeRoleWithMFA := fun _ _ _ _ =>
          .error { accessDenied := false, message := "unexpected MFA call" } }
    store :=
      { profiles := fun k => if k = "123-testRole" then some profCached else none
        credentials := fun k => if k = "123-testRole" then some credsCached else none }
    config := cfg5min
    now := 1000000
    inputLines := [] }

/-! ## Helper lemmas -/

theorem startsWithL_append (l p b : List Char) (h : startsWithL l p = true) :
    startsWithL (l ++ b) p = true := by
  induction p generalizing l with
  | nil => simp [startsWithL]
  | cons c cs ih =>
    cases l with
    | nil => simp [startsWithL] at h
    | cons x xs =>
      simp only [startsWithL, Bool.and_eq_true] at h
      simp only [List.cons_append, startsWithL, Bool.and_eq_true]
      exact ⟨h.1, ih xs h.2⟩

theorem hasSubL_nil (b : List Char) : hasSubL b [] = true := by
  cases b <;> simp [hasSubL, startsWithL, List.isEmpty]

theorem hasSubL_append_right (a b sub : List Char) (h : hasSubL a sub = true) :
    hasSubL (a ++ b) sub = true := by
  induction a with
  | nil =>
    simp only [hasSubL, List.isEmpty_iff] at h
    subst h
    simpa using hasSubL_nil b
  | cons x xs ih =>
    simp only [hasSubL, Bool.or_eq_true] at h
    rcases h with h | h
    · simp only [List.cons_append, hasSubL, Bool.or_eq_true]
      exact Or.inl (startsWithL_append _ _ _ h)
    · simp only [List.cons_append, hasSubL, Bool.or_eq_true]
      exact Or.inr (ih h)

theorem strHasSub_append_right (s t sub : String)
    (h : strHasSub s sub = true) : strHasSub (s ++ t) sub = true := by
  unfold strHasSub at h ⊢
  rw [String.data_append]
  exact hasSubL_append_right _ _ _ h

/-- The `ArgsLoop` collects, after whatever was already collected,
exactly the tokens from the stopping point onward. -/
theorem parseLoop_args (opts : CliOpts) (args : List String) :
    (parseLoop opts args).args = opts.args ++ remainderArgs args := by
  induction opts, args using parseLoop.induct <;>
    simp_all [parseLoop, remainderArgs]

/-- With an assumed-role principal, every event the cache-check stage
can emit is a store access under the profile key or the plain
assumption call - never device enumeration or the MFA-protected
assumption. -/
theorem cacheCheck_assumed_mem (key roleARN sessionName : String) (w : World)
    (tr : List Event) (ev : Event)
    (hev : ev ∈ (cacheCheck key roleARN sessionName true w tr).trace) :
    ev ∈ tr ∨ ev = Event.getProfile key ∨ ev = Event.getCredentials key ∨
      ev = Event.assumeRole roleARN sessionName ∨ ev = Event.setProfile key ∨
      ev = Event.setCredentials key := by
  unfold cacheCheck attemptAssumption persistAndReturn at hev
  rcases hpk : w.store.profiles key with _ | p <;> simp only [hpk] at hev
  case none =>
    rcases har : w.provider.assumeRole roleARN sessionName with e | cr <;>
      simp only [har] at hev <;> simp at hev <;> tauto
  case some =>
    by_cases hst : IsStale p.expires w.now w.config.refreshBeforeExpiry <;>
      simp only [hst, if_true, if_false, Bool.false_eq_true, if_neg] at hev
    · rcases har : w.provider.assumeRole roleARN sessionName with e | cr <;>
        simp only [har] at hev <;> simp at hev <;> tauto
    · rcases hcr : w.store.credentials key with _ | c <;>
        simp only [hcr] at hev <;> simp at hev <;> tauto

/-- The MFA fallback only appends events to the trace it was given. -/
theorem mfaFallback_mem (key roleARN sessionName : String) (o : AwsErr)
    (w : World) (tr : List Event) (ev : Event) (h : ev ∈ tr) :
    ev ∈ (mfaFallback key roleARN sessionName o w tr).trace := by
  unfold mfaFallback persistAndReturn
  rcases hd : w.provider.mfaDevices with e | devs
  · simp [h]
  · rcases devs with _ | ⟨d, ds⟩
    · simp [h]
    · rcases hpm : promptMFA (d :: ds) w.inputLines with ⟨serial, tok, rest, out⟩ | out
      · rcases hm : w.provider.assumeRoleWithMFA roleARN sessionName serial tok with e | cr <;>
          simp [hpm, hm, h]
      · simp [hpm, h]

/-- The MFA fallback always enumerates the MFA devices. -/
theorem mfaFallback_mem_mfaDevices (key roleARN sessionName : String) (o : AwsErr)
    (w : World) (tr : List Event) :
    Event.mfaDevices ∈ (mfaFallback key roleARN sessionName o w tr).trace := by
  unfold mfaFallback persistAndReturn
  rcases hd : w.provider.mfaDevices with e | devs
  · simp
  · rcases devs with _ | ⟨d, ds⟩
    · simp
    · rcases hpm : promptMFA (d :: ds) w.inputLines with ⟨serial, tok, rest, out⟩ | out
      · rcases hm : w.provider.assumeRoleWithMFA roleARN sessionName serial tok with e | cr <;>
          simp [hpm, hm]
      · simp [hpm]

/-- With a primary principal, no session override, a successful
username lookup, and a cache miss (no stored profile, or a stale one),
the engine is the plain-assumption stage run after the two lookups and
the profile read. -/
theorem engine_primary_run (params : AssumeRoleParameters) (w : World)
    (arn uname : String)
    (hp : w.provider.currentPrincipalARN = .ok arn)
    (ha : isAssumedRoleARN arn = false)
    (hs : params.roleSessionName = "")
    (hu : w.provider.username = .ok uname)
    (hmiss : w.store.profiles (engineKey params.userRole arn w.config.rolePfx) = none ∨
      ∃ p, w.store.profiles (engineKey params.userRole arn w.config.rolePfx) = some p ∧
        IsStale p.expires w.now w.config.refreshBeforeExpiry = true) :
    engineAssumeRole params w =
      attemptAssumption (engineKey params.userRole arn w.config.rolePfx)
        (resolveTarget params.userRole arn).roleARN uname false w
        [Event.currentPrincipalARN, Event.username,
         Event.getProfile (engineKey params.userRole arn w.config.rolePfx)] := by
  unfold engineAssumeRole
  rw [hp]
  simp only [hs, if_pos, hu, ha]
  unfold cacheCheck
  rcases hmiss with hm | ⟨p, hm, hstale⟩
  · simp [hm]
  · simp [hm, hstale]

/-! ## Claims -/

/-- C1: the expiry policy `IsStale(e, n, h)` equals `n + h >= e`, with
an inclusive boundary: a credential expiring exactly at `n`, or exactly
at `n + h`, is stale, while one expiring one nanosecond past the
refresh horizon is not. -/
theorem c1_isStale (e n h : Int) (hh : 0 ≤ h) :
    (IsStale e n h = true ↔ n + h ≥ e) ∧
    IsStale n n h = true ∧
    IsStale (n + h) n h = true ∧
    IsStale (n + h + 1) n h = false := by
  refine ⟨by simp [IsStale, ge_iff_le], by simp [IsStale]; omega,
    by simp [IsStale], by simp [IsStale]⟩

/-- Witness for C1 at `e = 5`, `n = 5`, `h = 3`. -/
theorem c1_isStale_witness :
    (IsStale 5 5 3 = true ↔ (5 : Int) + 3 ≥ 5) ∧
    IsStale 5 5 3 = true ∧
    IsStale (5 + 3) 5 3 = true ∧
    IsStale (5 + 3 + 1) 5 3 = false :=
  c1_isStale 5 5 3 (by decide)

/-- C10: `parseOptions` returns the `Missing required argument: --role`
error exactly when the role field is still empty after parsing, returns
a nil error exactly otherwise, and in both cases collects into the
remainder arguments, in order, every token from the point where parsing
stopped (at `--`, at the first unknown argument, or at end of input). -/
theorem c10_parseOptions (args : List String) :
    ((parseOptions args).2 = some errNoRole ↔ (parseOptions args).1.role = "") ∧
    ((parseOptions args).2 = none ↔ (parseOptions args).1.role ≠ "") ∧
    (parseOptions args).1.args = remainderArgs args := by
  unfold parseOptions
  by_cases h : (parseLoop { args := [], role := "", roleSessionName := "" } args).role = "" <;>
    simp [h, errNoRole, parseLoop_args]

/-- C7: against a two-device list, the prompt renders the 1-based
numbered menu in enumeration order, and on the input lines `asd`, `3`,
`1`, `123456` produces exactly: menu, `Invalid input (not a number)`,
menu, `Invalid input (not in range)`, menu, selection of device 1,
token prompt, and the token `123456` accepted verbatim, consuming the
whole input. -/
theorem c7_promptTranscript (d1 d2 : String) :
    menuText [d1, d2] =
      "[1]: " ++ (d1 ++ ("\n[2]: " ++ (d2 ++ "\nSelect MFA device: "))) ∧
    promptMFA [d1, d2] ["asd", "3", "1", "123456"] =
      .ok d1 "123456" []
        (((menuText [d1, d2] ++ "Invalid input (not a number)\n") ++
          ((menuText [d1, d2] ++ "Invalid input (not in range)\n") ++
            menuText [d1, d2])) ++ "Enter MFA token: ") := by
  refine ⟨?_, rfl⟩
  apply String.ext
  have t1 : toString (0 + 1 : Nat) = "1" := rfl
  have t2 : toString (1 + 1 : Nat) = "2" := rfl
  simp [menuText, String.join, List.enumFrom, List.map, List.foldl, t1, t2,
    String.data_append, List.append_assoc, List.enum]

/-- C2 counterexample: in a world whose cached profile is still valid
(expiry beyond `now` plus the refresh horizon), the engine returns the
cached credentials, yet its trace does contain provider calls - the
current-principal and username lookups of step 1 - so the cached path
does not perform zero provider I/O. -/
theorem c2_counterexample :
    IsStale profCached.expires wCached.now wCached.config.refreshBeforeExpiry = false ∧
    wCached.store.profiles "123-testRole" = some profCached ∧
    (engineAssumeRole pCached wCached).result = .ok credsCached ∧
    (engineAssumeRole pCached wCached).trace.filter Event.isProviderCall =
      [Event.currentPrincipalARN, Event.username] := by
  refine ⟨by decide, rfl, rfl, by decide⟩

/-- C2 (amended): for every cached profile whose expiry is strictly
later than `now` plus the refresh horizon per the injected clock, the
engine makes zero assumption calls, returns the cached credentials from
the store unchanged, leaves the store unchanged, and a second
invocation against the resulting store returns the identical result. -/
theorem c2_cachedReuse (params : AssumeRoleParameters) (w : World) (arn uname : String)
    (p : ProfileConfiguration) (c : TemporaryCredentials)
    (hp : w.provider.currentPrincipalARN = .ok arn)
    (hs : params.roleSessionName = "")
    (hu : w.provider.username = .ok uname)
    (hprof : w.store.profiles (engineKey params.userRole arn w.config.rolePfx) = some p)
    (hfresh : IsStale p.expires w.now w.config.refreshBeforeExpiry = false)
    (hcred : w.store.credentials (engineKey params.userRole arn w.config.rolePfx) = some c) :
    (engineAssumeRole params w).result = .ok c ∧
    (engineAssumeRole params w).trace.filter Event.isAssumptionCall = [] ∧
    (engineAssumeRole params w).store = w.store ∧
    engineAssumeRole params { w with store := (engineAssumeRole params w).store } =
      engineAssumeRole params w := by
  have hrun : engineAssumeRole params w =
      { result := .ok c,
        trace := [Event.currentPrincipalARN, Event.username,
          Event.getProfile (engineKey params.userRole arn w.config.rolePfx),
          Event.getCredentials (engineKey params.userRole arn w.config.rolePfx)],
        store := w.store, stderr := "", restInput := w.inputLines } := by
    unfold engineAssumeRole
    rw [hp]
    simp only [hs, if_pos, hu]
    unfold cacheCheck
    rw [hprof]
    simp only [hfresh, Bool.false_eq_true, if_neg, hcred]
    simp
  refine ⟨by rw [hrun], by rw [hrun]; simp [Event.isAssumptionCall], by rw [hrun], ?_⟩
  have hst : { w with store := (engineAssumeRole params w).store } = w := by
    rw [hrun]
  rw [hst]

/-- C4: with an assumed-role current principal, the engine never
enumerates MFA devices and never calls the MFA-protected assumption,
whatever the device list of the provider holds; every assumption event in
its trace is the plain call with the effective role ARN and the
override session name; and on a cache miss a failing plain call yields
an error (no credentials). -/
theorem c4_assumedRoleSkipsMFA (params : AssumeRoleParameters) (w : World)
    (arn : String)
    (hp : w.provider.currentPrincipalARN = .ok arn)
    (ha : isAssumedRoleARN arn = true)
    (hs : params.roleSessionName ≠ "") :
    (∀ ev ∈ (engineAssumeRole params w).trace,
      ev ≠ Event.mfaDevices ∧ ev.isMFAAssumption = false) ∧
    (∀ ev ∈ (engineAssumeRole params w).trace, ev.isAssumptionCall = true →
      ev = Event.assumeRole (resolveTarget params.userRole arn).roleARN
        params.roleSessionName) ∧
    (∀ e, w.store.profiles (engineKey params.userRole arn w.config.rolePfx) = none →
      w.provider.assumeRole (resolveTarget params.userRole arn).roleARN
        params.roleSessionName = .error e →
      (engineAssumeRole params w).result = .error (.assumedPlainFailure e)) := by
  have hrun : engineAssumeRole params w =
      cacheCheck (engineKey params.userRole arn w.config.rolePfx)
        (resolveTarget params.userRole arn).roleARN params.roleSessionName true w
        [Event.currentPrincipalARN] := by
    unfold engineAssumeRole
    rw [hp]
    simp [hs, ha]
  rw [hrun]
  refine ⟨?_, ?_, ?_⟩
  · intro ev hev
    have h6 := cacheCheck_assumed_mem _ _ _ _ _ _ hev
    rcases h6 with h | h | h | h | h | h <;>
      simp_all [Event.isMFAAssumption]
  · intro ev hev hcall
    have h6 := cacheCheck_assumed_mem _ _ _ _ _ _ hev
    rcases h6 with h | h | h | h | h | h <;>
      simp_all [Event.isAssumptionCall]
  · intro e hmiss herr
    unfold cacheCheck attemptAssumption
    simp only [hmiss, herr]
    simp

/-- C3: for a primary principal on a cache miss the engine always
attempts the plain assumption; it enters the MFA fallback (enumerates
devices) exactly when that plain attempt fails access-denied; and any
other plain failure is fatal and returned at once, wrapped with the
non-MFA-attempt marker. -/
theorem c3_plainThenMFAOnAccessDenied (params : AssumeRoleParameters) (w : World)
    (arn uname : String)
    (hp : w.provider.currentPrincipalARN = .ok arn)
    (ha : isAssumedRoleARN arn = false)
    (hs : params.roleSessionName = "")
    (hu : w.provider.username = .ok uname)
    (hmiss : w.store.profiles (engineKey params.userRole arn w.config.rolePfx) = none ∨
      ∃ p, w.store.profiles (engineKey params.userRole arn w.config.rolePfx) = some p ∧
        IsStale p.expires w.now w.config.refreshBeforeExpiry = true) :
    Event.assumeRole (resolveTarget params.userRole arn).roleARN uname ∈
      (engineAssumeRole params w).trace ∧
    (Event.mfaDevices ∈ (engineAssumeRole params w).trace ↔
      ∃ e, w.provider.assumeRole (resolveTarget params.userRole arn).roleARN uname =
        .error e ∧ e.accessDenied = true) ∧
    (∀ e, w.provider.assumeRole (resolveTarget params.userRole arn).roleARN uname =
        .error e → e.accessDenied = false →
      (engineAssumeRole params w).result = .error (.plainFailure e) ∧
      (engineAssumeRole params w).trace =
        [Event.currentPrincipalARN, Event.username,
         Event.getProfile (engineKey params.userRole arn w.config.rolePfx),
         Event.assumeRole (resolveTarget params.userRole arn).roleARN uname] ∧
      strHasSub (EngineErr.plainFailure e).render
        "error trying to AssumeRole without MFA" = true) := by
  rw [engine_primary_run params w arn uname hp ha hs hu hmiss]
  rcases har : w.provider.assumeRole (resolveTarget params.userRole arn).roleARN uname
    with e | cr
  · by_cases hd : e.accessDenied = true
    · have hred : attemptAssumption (engineKey params.userRole arn w.config.rolePfx)
          (resolveTarget params.userRole arn).roleARN uname false w
          [Event.currentPrincipalARN, Event.username,
           Event.getProfile (engineKey params.userRole arn w.config.rolePfx)] =
          mfaFallback (engineKey params.userRole arn w.config.rolePfx)
            (resolveTarget params.userRole arn).roleARN uname e w
            [Event.currentPrincipalARN, Event.username,
             Event.getProfile (engineKey params.userRole arn w.config.rolePfx),
             Event.assumeRole (resolveTarget params.userRole arn).roleARN uname] := by
        unfold attemptAssumption
        simp [har, hd]
      rw [hred]
      refine ⟨?_, ?_, ?_⟩
      · apply mfaFallback_mem
        simp
      · constructor
        · intro _
          exact ⟨e, rfl, hd⟩
        · intro _
          apply mfaFallback_mem_mfaDevices
      · intro e2 he2 hnd
        injection he2 with h12
        subst h12
        rw [hnd] at hd
        simp at hd
    · simp only [Bool.not_eq_true] at hd
      have htr : (attemptAssumption (engineKey params.userRole arn w.config.rolePfx)
          (resolveTarget params.userRole arn).roleARN uname false w
          [Event.currentPrincipalARN, Event.username,
           Event.getProfile (engineKey params.userRole arn w.config.rolePfx)]).trace =
          [Event.currentPrincipalARN, Event.username,
           Event.getProfile (engineKey params.userRole arn w.config.rolePfx),
           Event.assumeRole (resolveTarget params.userRole arn).roleARN uname] := by
        unfold attemptAssumption
        simp [har, hd]
      have hres : (attemptAssumption (engineKey params.userRole arn w.config.rolePfx)
          (resolveTarget params.userRole arn).roleARN uname false w
          [Event.currentPrincipalARN, Event.username,
           Event.getProfile (engineKey params.userRole arn w.config.rolePfx)]).result =
          .error (.plainFailure e) := by
        unfold attemptAssumption
        simp [har, hd]
      refine ⟨by rw [htr]; simp, ?_, ?_⟩
      · rw [htr]
        constructor
        · intro hmem
          simp at hmem
        · rintro ⟨e2, he2, hd2⟩
          injection he2 with h12
          subst h12
          rw [hd2] at hd
          simp at hd
      · intro e2 he2 hnd
        injection he2 with h12
        subst h12
        refine ⟨hres, htr, ?_⟩
        apply strHasSub_append_right
        decide
  · have htr : (attemptAssumption (engineKey params.userRole arn w.config.rolePfx)
        (resolveTarget params.userRole arn).roleARN uname false w
        [Event.currentPrincipalARN, Event.username,
         Event.getProfile (engineKey params.userRole arn w.config.rolePfx)]).trace =
        [Event.currentPrincipalARN, Event.username,
         Event.getProfile (engineKey params.userRole arn w.config.rolePfx),
         Event.assumeRole (resolveTarget params.userRole arn).roleARN uname,
         Event.setProfile (engineKey params.userRole arn w.config.rolePfx),
         Event.setCredentials (engineKey params.userRole arn w.config.rolePfx)] := by
      unfold attemptAssumption persistAndReturn
      simp [har]
    refine ⟨by rw [htr]; simp, ?_, ?_⟩
    · rw [htr]
      constructor
      · intro hmem
        simp at hmem
      · rintro ⟨e2, he2, _⟩
        simp at he2
    · intro e2 he2
      simp at he2

/-- After an access-denied plain failure, the primary-principal
assumption stage is the MFA fallback with the plain call appended to
the trace. -/
theorem attemptAssumption_denied (key roleARN sessionName : String) (w : World)
    (tr : List Event) (e : AwsErr)
    (har : w.provider.assumeRole roleARN sessionName = .error e)
    (hd : e.accessDenied = true) :
    attemptAssumption key roleARN sessionName false w tr =
      mfaFallback key roleARN sessionName e w
        (tr ++ [Event.assumeRole roleARN sessionName]) := by
  unfold attemptAssumption
  simp [har, hd]

/-- C5: when the plain assumption fails access-denied and device
enumeration returns zero devices, the engine returns no credentials but
the composite no-MFA-devices error, whose rendered message carries both
the non-MFA-attempt marker and the MFA-attempt marker. -/
theorem c5_noDevicesCompositeError (params : AssumeRoleParameters) (w : World)
    (arn uname : String) (e : AwsErr)
    (hp : w.provider.currentPrincipalARN = .ok arn)
    (ha : isAssumedRoleARN arn = false)
    (hs : params.roleSessionName = "")
    (hu : w.provider.username = .ok uname)
    (hmiss : w.store.profiles (engineKey params.userRole arn w.config.rolePfx) = none)
    (hplain : w.provider.assumeRole (resolveTarget params.userRole arn).roleARN uname =
      .error e)
    (hden : e.accessDenied = true)
    (hdev : w.provider.mfaDevices = .ok []) :
    (engineAssumeRole params w).result = .error (.noMFADevices e) ∧
    (∀ c, (engineAssumeRole params w).result ≠ .ok c) ∧
    strHasSub (EngineErr.noMFADevices e).render
      "error trying to AssumeRole without MFA" = true ∧
    strHasSub (EngineErr.noMFADevices e).render
      "error trying to AssumeRole with MFA" = true := by
  rw [engine_primary_run params w arn uname hp ha hs hu (Or.inl hmiss),
    attemptAssumption_denied _ _ _ _ _ _ hplain hden]
  have hres : (mfaFallback (engineKey params.userRole arn w.config.rolePfx)
      (resolveTarget params.userRole arn).roleARN uname e w
      ([Event.currentPrincipalARN, Event.username,
        Event.getProfile (engineKey params.userRole arn w.config.rolePfx)] ++
        [Event.assumeRole (resolveTarget params.userRole arn).roleARN uname])).result =
      .error (.noMFADevices e) := by
    unfold mfaFallback
    simp [hdev]
  refine ⟨hres, ?_, ?_, ?_⟩
  · intro c
    rw [hres]
    simp
  · apply strHasSub_append_right
    decide
  · apply strHasSub_append_right
    decide

/-- C6: primary principal, access-denied plain failure, exactly one
MFA device, and a token line on input: the engine calls the
MFA-protected assumption exactly once with that device serial and that
token, persists a profile carrying that serial and the returned
expiry of the returned credentials, stores the credentials, and returns them. -/
theorem c6_mfaHappyPath (params : AssumeRoleParameters) (w : World)
    (arn uname serial tok : String) (rest : List String)
    (creds : TemporaryCredentials) (e : AwsErr)
    (hp : w.provider.currentPrincipalARN = .ok arn)
    (ha : isAssumedRoleARN arn = false)
    (hs : params.roleSessionName = "")
    (hu : w.provider.username = .ok uname)
    (hmiss : w.store.profiles (engineKey params.userRole arn w.config.rolePfx) = none)
    (hplain : w.provider.assumeRole (resolveTarget params.userRole arn).roleARN uname =
      .error e)
    (hden : e.accessDenied = true)
    (hdev : w.provider.mfaDevices = .ok [serial])
    (hin : w.inputLines = tok :: rest)
    (hmfa : w.provider.assumeRoleWithMFA (resolveTarget params.userRole arn).roleARN
      uname serial tok = .ok creds) :
    (engineAssumeRole params w).result = .ok creds ∧
    (engineAssumeRole params w).trace.filter Event.isMFAAssumption =
      [Event.assumeRoleWithMFA (resolveTarget params.userRole arn).roleARN uname
        serial tok] ∧
    (engineAssumeRole params w).store.profiles
        (engineKey params.userRole arn w.config.rolePfx) =
      some { expires := creds.expires, mfaSerial := serial,
             roleARN := (resolveTarget params.userRole arn).roleARN,
             roleSessionName := uname } ∧
    (engineAssumeRole params w).store.credentials
        (engineKey params.userRole arn w.config.rolePfx) = some creds := by
  rw [engine_primary_run params w arn uname hp ha hs hu (Or.inl hmiss),
    attemptAssumption_denied _ _ _ _ _ _ hplain hden]
  have hred : mfaFallback (engineKey params.userRole arn w.config.rolePfx)
      (resolveTarget params.userRole arn).roleARN uname e w
      ([Event.currentPrincipalARN, Event.username,
        Event.getProfile (engineKey params.userRole arn w.config.rolePfx)] ++
        [Event.assumeRole (resolveTarget params.userRole arn).roleARN uname]) =
      persistAndReturn (engineKey params.userRole arn w.config.rolePfx)
        (resolveTarget params.userRole arn).roleARN uname serial creds w
        [Event.currentPrincipalARN, Event.username,
         Event.getProfile (engineKey params.userRole arn w.config.rolePfx),
         Event.assumeRole (resolveTarget params.userRole arn).roleARN uname,
         Event.mfaDevices,
         Event.assumeRoleWithMFA (resolveTarget params.userRole arn).roleARN uname
           serial tok]
        "Enter MFA token: " rest := by
    unfold mfaFallback
    simp [hdev, hin, promptMFA, hmfa]
  rw [hred]
  unfold persistAndReturn
  refine ⟨rfl, ?_, ?_, ?_⟩
  · simp [Event.isMFAAssumption]
  · simp
  · simp

/-- C9: with exactly one enumerated MFA device the engine skips the
device-selection menu and auto-selects it: the prompt emits only the
token prompt, exactly the token line is consumed from the input
stream, and any MFA-protected assumption call in the trace uses the
single device serial and that token. -/
theorem c9_singleDeviceAutoSelect (params : AssumeRoleParameters) (w : World)
    (arn uname serial tok : String) (rest : List String) (e : AwsErr)
    (hp : w.provider.currentPrincipalARN = .ok arn)
    (ha : isAssumedRoleARN arn = false)
    (hs : params.roleSessionName = "")
    (hu : w.provider.username = .ok uname)
    (hmiss : w.store.profiles (engineKey params.userRole arn w.config.rolePfx) = none)
    (hplain : w.provider.assumeRole (resolveTarget params.userRole arn).roleARN uname =
      .error e)
    (hden : e.accessDenied = true)
    (hdev : w.provider.mfaDevices = .ok [serial])
    (hin : w.inputLines = tok :: rest) :
    promptMFA [serial] (tok :: rest) =
      .ok serial tok rest "Enter MFA token: " ∧
    (engineAssumeRole params w).stderr = "Enter MFA token: " ∧
    (engineAssumeRole params w).restInput = rest ∧
    (engineAssumeRole params w).trace.filter Event.isMFAAssumption =
      [Event.assumeRoleWithMFA (resolveTarget params.userRole arn).roleARN uname
        serial tok] := by
  rw [engine_primary_run params w arn uname hp ha hs hu (Or.inl hmiss),
    attemptAssumption_denied _ _ _ _ _ _ hplain hden]
  refine ⟨by simp [promptMFA], ?_, ?_, ?_⟩ <;>
  · unfold mfaFallback persistAndReturn
    rcases hm : w.provider.assumeRoleWithMFA (resolveTarget params.userRole arn).roleARN
        uname serial tok with e2 | cr <;>
      simp [hdev, hin, promptMFA, hm, Event.isMFAAssumption]


/-- Every event the MFA fallback appends is a provider call or a store
access under the given profile key. -/
theorem mfaFallback_storeKey (key roleARN sessionName : String) (o : AwsErr)
    (w : World) (tr : List Event) (ev : Event)
    (hev : ev ∈ (mfaFallback key roleARN sessionName o w tr).trace) :
    ev ∈ tr ∨ ev.storeKey = none ∨ ev.storeKey = some key := by
  unfold mfaFallback persistAndReturn at hev
  rcases hd : w.provider.mfaDevices with e | devs <;> simp only [hd] at hev
  · simp at hev
    rcases hev with h | h <;> simp [h, Event.storeKey]
  · rcases devs with _ | ⟨d, ds⟩
    · simp at hev
      rcases hev with h | h <;> simp [h, Event.storeKey]
    · rcases hpm : promptMFA (d :: ds) w.inputLines with ⟨serial, tok, rest, out⟩ | out <;>
        simp only [hpm] at hev
      · rcases hm : w.provider.assumeRoleWithMFA roleARN sessionName serial tok
          with e | cr <;> simp only [hm] at hev <;> simp at hev
        · rcases hev with h | h | h <;> simp [h, Event.storeKey]
        · rcases hev with h | h | h | h | h <;> simp [h, Event.storeKey]
      · simp at hev
        rcases hev with h | h <;> simp [h, Event.storeKey]

/-- Every event the plain-assumption stage appends is a provider call
or a store access under the given profile key. -/
theorem attemptAssumption_storeKey (key roleARN sessionName : String) (b : Bool)
    (w : World) (tr : List Event) (ev : Event)
    (hev : ev ∈ (attemptAssumption key roleARN sessionName b w tr).trace) :
    ev ∈ tr ∨ ev.storeKey = none ∨ ev.storeKey = some key := by
  unfold attemptAssumption persistAndReturn at hev
  rcases har : w.provider.assumeRole roleARN sessionName with e | cr <;>
    simp only [har] at hev
  · rcases b with _ | _
    · by_cases hd : e.accessDenied = true
      · simp only [hd, Bool.false_eq_true, if_false, if_true] at hev
        have h2 := mfaFallback_storeKey key roleARN sessionName e w
          (tr ++ [Event.assumeRole roleARN sessionName]) ev hev
        rcases h2 with h | h | h
        · simp at h
          rcases h with h | h
          · exact Or.inl h
          · simp [h, Event.storeKey]
        · simp [h]
        · simp [h]
      · simp only [Bool.not_eq_true] at hd
        simp [hd] at hev
        rcases hev with h | h <;> simp [h, Event.storeKey]
    · simp at hev
      rcases hev with h | h <;> simp [h, Event.storeKey]
  · simp at hev
    rcases hev with h | h | h | h <;> simp [h, Event.storeKey]

/-- Every event the cache-check stage appends is a provider call or a
store access under the given profile key. -/
theorem cacheCheck_storeKey (key roleARN sessionName : String) (b : Bool)
    (w : World) (tr : List Event) (ev : Event)
    (hev : ev ∈ (cacheCheck key roleARN sessionName b w tr).trace) :
    ev ∈ tr ∨ ev.storeKey = none ∨ ev.storeKey = some key := by
  unfold cacheCheck at hev
  rcases hpk : w.store.profiles key with _ | p <;> simp only [hpk] at hev
  · have h2 := attemptAssumption_storeKey key roleARN sessionName b w
      (tr ++ [Event.getProfile key]) ev hev
    rcases h2 with h | h | h
    · simp at h
      rcases h with h | h
      · exact Or.inl h
      · simp [h, Event.storeKey]
    · simp [h]
    · simp [h]
  · by_cases hst : IsStale p.expires w.now w.config.refreshBeforeExpiry
    · simp only [hst, if_true] at hev
      have h2 := attemptAssumption_storeKey key roleARN sessionName b w
        (tr ++ [Event.getProfile key]) ev hev
      rcases h2 with h | h | h
      · simp at h
        rcases h with h | h
        · exact Or.inl h
        · simp [h, Event.storeKey]
      · simp [h]
      · simp [h]
    · simp only [hst, Bool.false_eq_true, if_false, if_neg] at hev
      rcases hcr : w.store.credentials key with _ | c <;> simp only [hcr] at hev <;>
        simp at hev <;> rcases hev with h | h | h <;> simp [h, Event.storeKey]

/-- The plain-assumption stage only appends events to its trace. -/
theorem attemptAssumption_mem (key roleARN sessionName : String) (b : Bool)
    (w : World) (tr : List Event) (ev : Event) (h : ev ∈ tr) :
    ev ∈ (attemptAssumption key roleARN sessionName b w tr).trace := by
  unfold attemptAssumption persistAndReturn
  rcases har : w.provider.assumeRole roleARN sessionName with e | cr
  · rcases b with _ | _
    · by_cases hd : e.accessDenied = true
      · simp only [har, hd, Bool.false_eq_true, if_false, if_true]
        apply mfaFallback_mem
        simp [h]
      · simp only [Bool.not_eq_true] at hd
        simp [har, hd, h]
    · simp [har, h]
  · simp [har, h]

/-- The cache-check stage always reads the profile under its key. -/
theorem cacheCheck_mem_getProfile (key roleARN sessionName : String) (b : Bool)
    (w : World) (tr : List Event) :
    Event.getProfile key ∈ (cacheCheck key roleARN sessionName b w tr).trace := by
  unfold cacheCheck
  rcases hpk : w.store.profiles key with _ | p <;> simp only [hpk]
  · apply attemptAssumption_mem
    simp
  · by_cases hst : IsStale p.expires w.now w.config.refreshBeforeExpiry
    · simp only [hst, if_true]
      apply attemptAssumption_mem
      simp
    · simp only [hst, Bool.false_eq_true, if_false, if_neg]
      rcases hcr : w.store.credentials key with _ | c <;> simp

/-- C8: the profile key is `{alias-or-accountID}-{roleName}` - the
configured alias, when present, replaces the raw account identifier; a
fully qualified target ARN is used as-is with its account identifier
extracted from it, while a bare role name has its ARN constructed as
`arn:aws:iam::{accountID}:role/{roleName}` from the account of the
current principal; and on every call (once the principal is resolved) the engine
reads the profile under exactly this key and addresses no other store
key. -/
theorem c8_profileKeyDerivation (params : AssumeRoleParameters) (w : World)
    (arn uname : String)
    (hp : w.provider.currentPrincipalARN = .ok arn)
    (hu : w.provider.username = .ok uname) :
    engineKey params.userRole arn w.config.rolePfx =
      (if w.config.rolePfx = "" then (resolveTarget params.userRole arn).accountID
       else w.config.rolePfx) ++ "-" ++ (resolveTarget params.userRole arn).roleName ∧
    (strStartsWith params.userRole "arn:" = true →
      (resolveTarget params.userRole arn).roleARN = params.userRole ∧
      (resolveTarget params.userRole arn).accountID = arnAccountID params.userRole) ∧
    (strStartsWith params.userRole "arn:" = false →
      (resolveTarget params.userRole arn).roleARN =
        "arn:aws:iam::" ++ arnAccountID arn ++ ":role/" ++ params.userRole ∧
      (resolveTarget params.userRole arn).accountID = arnAccountID arn) ∧
    Event.getProfile (engineKey params.userRole arn w.config.rolePfx) ∈
      (engineAssumeRole params w).trace ∧
    (∀ ev ∈ (engineAssumeRole params w).trace,
      ev.storeKey = none ∨
      ev.storeKey = some (engineKey params.userRole arn w.config.rolePfx)) := by
  refine ⟨rfl, ?_, ?_, ?_, ?_⟩
  · intro harn
    simp [resolveTarget, harn]
  · intro harn
    simp [resolveTarget, harn]
  · unfold engineAssumeRole
    rw [hp]
    by_cases hsn : params.roleSessionName = ""
    · simp only [hsn, if_pos, hu]
      simp only [engineKey]
      apply cacheCheck_mem_getProfile
    · simp only [hsn, if_neg]
      simp only [engineKey]
      apply cacheCheck_mem_getProfile
  · intro ev hev
    unfold engineAssumeRole at hev
    rw [hp] at hev
    by_cases hsn : params.roleSessionName = ""
    · simp only [hsn, if_pos, hu] at hev
      simp only [engineKey] at hev
      have h2 := cacheCheck_storeKey _ _ _ _ _ _ _ hev
      rcases h2 with h | h | h
      · simp at h
        rcases h with h | h <;> simp [h, Event.storeKey]
      · simp [h]
      · simp only [engineKey]
        simp [h]
    · simp only [hsn, if_neg] at hev
      simp only [engineKey] at hev
      have h2 := cacheCheck_storeKey _ _ _ _ _ _ _ hev
      rcases h2 with h | h | h
      · simp at h
        simp [h, Event.storeKey]
      · simp [h]
      · simp only [engineKey]
        simp [h]


/-- Witness for C2 (amended) in the concrete cache-hit world. -/
theorem c2_cachedReuse_witness :
    (engineAssumeRole pCached wCached).result = .ok credsCached ∧
    (engineAssumeRole pCached wCached).trace.filter Event.isAssumptionCall = [] ∧
    (engineAssumeRole pCached wCached).store = wCached.store ∧
    engineAssumeRole pCached
        { wCached with store := (engineAssumeRole pCached wCached).store } =
      engineAssumeRole pCached wCached :=
  c2_cachedReuse pCached wCached "arn:aws:iam::000000000000:user/bob" "bob"
    profCached credsCached rfl rfl rfl rfl rfl rfl

/-- Witness for C3 in the concrete first-time MFA world. -/
theorem c3_witness :
    Event.assumeRole
        (resolveTarget pTestRole.userRole "arn:aws:iam::000000000000:user/bob").roleARN
        "bob" ∈ (engineAssumeRole pTestRole wMFA).trace ∧
    (Event.mfaDevices ∈ (engineAssumeRole pTestRole wMFA).trace ↔
      ∃ e, wMFA.provider.assumeRole
          (resolveTarget pTestRole.userRole
            "arn:aws:iam::000000000000:user/bob").roleARN "bob" =
        .error e ∧ e.accessDenied = true) ∧
    (∀ e, wMFA.provider.assumeRole
        (resolveTarget pTestRole.userRole
          "arn:aws:iam::000000000000:user/bob").roleARN "bob" =
        .error e → e.accessDenied = false →
      (engineAssumeRole pTestRole wMFA).result = .error (.plainFailure e) ∧
      (engineAssumeRole pTestRole wMFA).trace =
        [Event.currentPrincipalARN, Event.username,
         Event.getProfile (engineKey pTestRole.userRole
           "arn:aws:iam::000000000000:user/bob" wMFA.config.rolePfx),
         Event.assumeRole
           (resolveTarget pTestRole.userRole
             "arn:aws:iam::000000000000:user/bob").roleARN "bob"] ∧
      strHasSub (EngineErr.plainFailure e).render
        "error trying to AssumeRole without MFA" = true) :=
  c3_plainThenMFAOnAccessDenied pTestRole wMFA
    "arn:aws:iam::000000000000:user/bob" "bob" rfl rfl rfl rfl (Or.inl rfl)

/-- Witness for C4 in the concrete assumed-role world. -/
theorem c4_witness :
    (∀ ev ∈ (engineAssumeRole pFromAssumed wAssumed).trace,
      ev ≠ Event.mfaDevices ∧ ev.isMFAAssumption = false) ∧
    (∀ ev ∈ (engineAssumeRole pFromAssumed wAssumed).trace,
      ev.isAssumptionCall = true →
      ev = Event.assumeRole
        (resolveTarget pFromAssumed.userRole
          "arn:aws:sts::000000000000:assumed-role/testRole/bob").roleARN
        pFromAssumed.roleSessionName) ∧
    (∀ e, wAssumed.store.profiles (engineKey pFromAssumed.userRole
        "arn:aws:sts::000000000000:assumed-role/testRole/bob"
        wAssumed.config.rolePfx) = none →
      wAssumed.provider.assumeRole
        (resolveTarget pFromAssumed.userRole
          "arn:aws:sts::000000000000:assumed-role/testRole/bob").roleARN
        pFromAssumed.roleSessionName = .error e →
      (engineAssumeRole pFromAssumed wAssumed).result =
        .error (.assumedPlainFailure e)) :=
  c4_assumedRoleSkipsMFA pFromAssumed wAssumed
    "arn:aws:sts::000000000000:assumed-role/testRole/bob" rfl rfl (by decide)

/-- Witness for C5 in the concrete zero-devices world. -/
theorem c5_witness :
    (engineAssumeRole pTestRole wNoDev).result = .error (.noMFADevices deniedErr) ∧
    (∀ c, (engineAssumeRole pTestRole wNoDev).result ≠ .ok c) ∧
    strHasSub (EngineErr.noMFADevices deniedErr).render
      "error trying to AssumeRole without MFA" = true ∧
    strHasSub (EngineErr.noMFADevices deniedErr).render
      "error trying to AssumeRole with MFA" = true :=
  c5_noDevicesCompositeError pTestRole wNoDev
    "arn:aws:iam::000000000000:user/bob" "bob" deniedErr rfl rfl rfl rfl rfl rfl rfl rfl

/-- Witness for C6 in the concrete first-time MFA world. -/
theorem c6_witness :
    (engineAssumeRole pTestRole wMFA).result = .ok credsA ∧
    (engineAssumeRole pTestRole wMFA).trace.filter Event.isMFAAssumption =
      [Event.assumeRoleWithMFA
        (resolveTarget pTestRole.userRole
          "arn:aws:iam::000000000000:user/bob").roleARN "bob"
        "arn:aws:iam::000000000000:mfa/bob" "123456"] ∧
    (engineAssumeRole pTestRole wMFA).store.profiles
        (engineKey pTestRole.userRole "arn:aws:iam::000000000000:user/bob"
          wMFA.config.rolePfx) =
      some { expires := credsA.expires,
             mfaSerial := "arn:aws:iam::000000000000:mfa/bob",
             roleARN := (resolveTarget pTestRole.userRole
               "arn:aws:iam::000000000000:user/bob").roleARN,
             roleSessionName := "bob" } ∧
    (engineAssumeRole pTestRole wMFA).store.credentials
        (engineKey pTestRole.userRole "arn:aws:iam::000000000000:user/bob"
          wMFA.config.rolePfx) = some credsA :=
  c6_mfaHappyPath pTestRole wMFA "arn:aws:iam::000000000000:user/bob" "bob"
    "arn:aws:iam::000000000000:mfa/bob" "123456" [] credsA deniedErr
    rfl rfl rfl rfl rfl rfl rfl rfl rfl rfl

/-- Witness for C8 in the concrete first-time MFA world. -/
theorem c8_witness :
    engineKey pTestRole.userRole "arn:aws:iam::000000000000:user/bob"
        wMFA.config.rolePfx =
      (if wMFA.config.rolePfx = "" then
        (resolveTarget pTestRole.userRole
          "arn:aws:iam::000000000000:user/bob").accountID
       else wMFA.config.rolePfx) ++ "-" ++
        (resolveTarget pTestRole.userRole
          "arn:aws:iam::000000000000:user/bob").roleName ∧
    (strStartsWith pTestRole.userRole "arn:" = true →
      (resolveTarget pTestRole.userRole
        "arn:aws:iam::000000000000:user/bob").roleARN = pTestRole.userRole ∧
      (resolveTarget pTestRole.userRole
        "arn:aws:iam::000000000000:user/bob").accountID =
        arnAccountID pTestRole.userRole) ∧
    (strStartsWith pTestRole.userRole "arn:" = false →
      (resolveTarget pTestRole.userRole
        "arn:aws:iam::000000000000:user/bob").roleARN =
        "arn:aws:iam::" ++ arnAccountID "arn:aws:iam::000000000000:user/bob" ++
          ":role/" ++ pTestRole.userRole ∧
      (resolveTarget pTestRole.userRole
        "arn:aws:iam::000000000000:user/bob").accountID =
        arnAccountID "arn:aws:iam::000000000000:user/bob") ∧
    Event.getProfile (engineKey pTestRole.userRole
        "arn:aws:iam::000000000000:user/bob" wMFA.config.rolePfx) ∈
      (engineAssumeRole pTestRole wMFA).trace ∧
    (∀ ev ∈ (engineAssumeRole pTestRole wMFA).trace,
      ev.storeKey = none ∨
      ev.storeKey = some (engineKey pTestRole.userRole
        "arn:aws:iam::000000000000:user/bob" wMFA.config.rolePfx)) :=
  c8_profileKeyDerivation pTestRole wMFA "arn:aws:iam::000000000000:user/bob"
    "bob" rfl rfl

/-- Witness for C9 in the concrete first-time MFA world. -/
theorem c9_witness :
    promptMFA ["arn:aws:iam::000000000000:mfa/bob"] ("123456" :: []) =
      .ok "arn:aws:iam::000000000000:mfa/bob" "123456" [] "Enter MFA token: " ∧
    (engineAssumeRole pTestRole wMFA).stderr = "Enter MFA token: " ∧
    (engineAssumeRole pTestRole wMFA).restInput = [] ∧
    (engineAssumeRole pTestRole wMFA).trace.filter Event.isMFAAssumption =
      [Event.assumeRoleWithMFA
        (resolveTarget pTestRole.userRole
          "arn:aws:iam::000000000000:user/bob").roleARN "bob"
        "arn:aws:iam::000000000000:mfa/bob" "123456"] :=
  c9_singleDeviceAutoSelect pTestRole wMFA "arn:aws:iam::000000000000:user/bob"
    "bob" "arn:aws:iam::000000000000:mfa/bob" "123456" [] deniedErr
    rfl rfl rfl rfl rfl rfl rfl rfl rfl


end AssumeRoleCLI
